import Mathlib

/-!
Verification of the service supervisor logic of `server_manager.py`
(Woodmont Industrial News Briefing repository).

The supervisor observes the managed service only through three external
capabilities: `netstat` output (port listening), a `psutil` process table
(pid, name, command line), and a `tasklist` fallback.  Each external call
may fail; failures are modelled as `none`.  The functions below are shallow
embeddings of `check_server_status`, `start_server_normal`, `stop_server`,
`force_kill_server` and `restart_server`, with the outside world supplied
as explicit environment records holding the observations each external call
would return, in program order.
-/

/-! ### Python string primitives

Python's `pat in s`, `str.lower`, `str.strip`, `str.split()` and
`str.split('\n')` are re-implemented over `List Char` so that every
concrete evaluation reduces in the kernel. -/

/-- Whether `pat` is a prefix of `s` (character lists). -/
def listStartsWith : List Char → List Char → Bool
  | [], _ => true
  | _ :: _, [] => false
  | a :: as, b :: bs => a == b && listStartsWith as bs

/-- Whether `pat` occurs as a contiguous run inside `s` (character lists). -/
def listHasRun (pat : List Char) : List Char → Bool
  | [] => pat == []
  | c :: rest => listStartsWith pat (c :: rest) || listHasRun pat rest

/-- Python's `pat in s` substring test. -/
def pyIn (pat s : String) : Bool := listHasRun pat.data s.data

/-- ASCII lower-casing of one character, as Python's `str.lower` does for
the ASCII names and command lines the supervisor deals with. -/
def lowerChar (c : Char) : Char :=
  if 'A' ≤ c ∧ c ≤ 'Z' then Char.ofNat (c.toNat + 32) else c

/-- Python's `str.lower` (ASCII range). -/
def pyLower (s : String) : String := String.mk (s.data.map lowerChar)

/-- Python's `str.strip`: drop leading and trailing whitespace. -/
def pyStrip (s : String) : String :=
  String.mk (((s.data.dropWhile Char.isWhitespace).reverse.dropWhile
      Char.isWhitespace).reverse)

/-- Helper for `pySplitWs`: accumulate the current token (reversed). -/
def pySplitWsAux (acc : List Char) : List Char → List String
  | [] => if acc.isEmpty then [] else [String.mk acc.reverse]
  | c :: cs =>
    if c.isWhitespace then
      if acc.isEmpty then pySplitWsAux [] cs
      else String.mk acc.reverse :: pySplitWsAux [] cs
    else pySplitWsAux (c :: acc) cs

/-- Python's no-argument `str.split()`: split on whitespace runs,
dropping empty tokens. -/
def pySplitWs (s : String) : List String := pySplitWsAux [] s.data

/-- Helper for `pySplitNl`: accumulate the current line (reversed). -/
def pySplitNlAux (acc : List Char) : List Char → List String
  | [] => [String.mk acc.reverse]
  | c :: cs =>
    if c == '\n' then String.mk acc.reverse :: pySplitNlAux [] cs
    else pySplitNlAux (c :: acc) cs

/-- Python's `str.split('\n')`: split on newlines, keeping empty lines. -/
def pySplitNl (s : String) : List String := pySplitNlAux [] s.data

/-! ### Data model -/

/-- One entry of the `psutil` process table: `proc.info['pid']`,
`proc.info['name']` and `proc.info['cmdline']`.  Name and command line may
be `None` in Python, hence `Option`. -/
structure ProcInfo where
  pid : Nat
  name : Option String
  cmdline : Option (List String)
  deriving DecidableEq

/-- The three liveness classifications `check_server_status` can store in
`current_status` (besides leaving it `None`): `'running'`,
`'node_running'` and `'not_running'`.  `node_running` is the code's
"process present, port closed" state. -/
inductive Status where
  | running
  | node_running
  | not_running
  deriving DecidableEq

/-- What the three detection methods of one `check_server_status` call
observe: the `netstat -an` stdout, the `psutil` process table, and the
`tasklist` fallback stdout.  `none` means the corresponding call raised. -/
structure InspectorState where
  netstat : Option String
  procs : Option (List ProcInfo)
  tasklist : Option String
  deriving DecidableEq

/-- The f-string port pattern `f':{port} '` used against netstat output. -/
def portPat (port : Nat) : String := ":" ++ toString port ++ " "

/-- The process filter of `check_server_status` method 2 and of the
matched-process kill passes of `stop_server` method 1:
`'node' in proc.info['name'].lower()` (with a truthy name) and
`any('rssfeed' in str(cmd).lower() for cmd in proc.info['cmdline'])`
(with a truthy command line). -/
def matchesRssfeed (p : ProcInfo) : Bool :=
  (match p.name with
   | some n => pyIn "node" (pyLower n)
   | none => false)
  &&
  (match p.cmdline with
   | some cs => cs.any fun c => pyIn "rssfeed" (pyLower c)
   | none => false)

/-- The name-only filter of `force_kill_server` strategy 1:
`'node' in proc.info['name'].lower()` with a truthy name. -/
def matchesNode (p : ProcInfo) : Bool :=
  match p.name with
  | some n => pyIn "node" (pyLower n)
  | none => false

/-! ### check_server_status -/

/-- Method 1 of `check_server_status`: netstat port check.  Sets
`current_status = 'running'` when the output contains `f':{port} '` and
`'LISTENING'`; an exception leaves the status `None`. -/
def status_method1 (port : Nat) (s : InspectorState) : Option Status :=
  match s.netstat with
  | some out =>
    if pyIn (portPat port) out && pyIn "LISTENING" out then some Status.running
    else none
  | none => none

/-- Method 2 of `check_server_status`: runs when the status is not
`'running'`; a psutil scan finding a name+command-line match sets
`'node_running'`; an exception leaves the status unchanged. -/
def status_method2 (port : Nat) (s : InspectorState) : Option Status :=
  let c := status_method1 port s
  if c ≠ some Status.running then
    match s.procs with
    | some ps => if ps.any matchesRssfeed then some Status.node_running else c
    | none => c
  else c

/-- Method 3 of `check_server_status`: runs when the status is still
`None`; `tasklist` output containing `'node.exe'` sets `'node_running'`,
and an exception in this fallback sets `'not_running'`. -/
def status_method3 (port : Nat) (s : InspectorState) : Option Status :=
  let c := status_method2 port s
  if c = none then
    match s.tasklist with
    | some out => if pyIn "node.exe" out then some Status.node_running else none
    | none => some Status.not_running
  else c

/-- `check_server_status`: the `current_status` value after the three
detection methods. `none` means it stayed `None` (displayed as "SERVER IS
NOT RUNNING", like `not_running`). -/
def check_server_status (port : Nat) (s : InspectorState) : Option Status :=
  status_method3 port s

/-- The boolean return value of `check_server_status`:
`current_status == 'running'`. -/
def check_returns (port : Nat) (s : InspectorState) : Bool :=
  check_server_status port s == some Status.running

/-- Whether the port was observed in a listening state by the netstat
method of this check. -/
def portObservedListening (port : Nat) (s : InspectorState) : Bool :=
  match s.netstat with
  | some out => pyIn (portPat port) out && pyIn "LISTENING" out
  | none => false

/-! ### Concrete inspector states used in witnesses and counterexamples -/

/-- A netstat line showing 8080 in LISTENING state. -/
def listeningLine : String :=
  "  TCP    0.0.0.0:8080           0.0.0.0:0              LISTENING       999"

/-- Port 8080 listening, empty process table, empty tasklist: the world as
seen when only the port is up. -/
def listeningNoProc : InspectorState :=
  { netstat := some listeningLine
  , procs := some []
  , tasklist := some "" }

/-- Nothing running: netstat header only, no processes, no node.exe rows. -/
def idleInspector : InspectorState :=
  { netstat := some "Active Connections"
  , procs := some []
  , tasklist := some "INFO: No tasks are running." }

/-- All three detection methods raise. -/
def allErrors : InspectorState :=
  { netstat := none, procs := none, tasklist := none }

/-- A matching rssfeed Node.js process. -/
def nodeProc : ProcInfo :=
  { pid := 4242
  , name := some "node.exe"
  , cmdline := some ["node", "C:\\srv\\rssfeed.ts"] }

/-- Port not listening but the matching process is present. -/
def nodePresentInspector : InspectorState :=
  { netstat := some "Active Connections"
  , procs := some [nodeProc]
  , tasklist := some "" }

/-- Netstat raises, psutil finds the matching process. -/
def portErrInspector : InspectorState :=
  { netstat := none
  , procs := some [nodeProc]
  , tasklist := some "" }


/-! ### start_server_normal -/

/-- Environment of one `start_server_normal` call: the inspector state the
entry guard's `check_server_status` sees, whether `subprocess.Popen`
succeeds, and the inspector states seen by the startup wait loop's checks
(one per elapsed second). -/
structure StartEnv where
  guardCheck : InspectorState
  spawnOk : Bool
  polls : Nat → InspectorState

/-- Result of `start_server_normal`: whether the spawn (`Popen`) was
invoked, and the message logged or shown for the outcome. -/
structure StartResult where
  spawnInvoked : Bool
  message : String
  deriving DecidableEq

/-- `start_server_normal`: if the entry `check_server_status()` returns
true, show "Server is already running on port 8080!" and return without
spawning; otherwise spawn (a raising `Popen` is the failure path) and poll
`check_server_status` once per second for `server_timeout` seconds. -/
def start_server_normal (port timeout : Nat) (env : StartEnv) : StartResult :=
  if check_returns port env.guardCheck then
    { spawnInvoked := false, message := "Server is already running on port 8080!" }
  else if !env.spawnOk then
    { spawnInvoked := true, message := "Failed to start server" }
  else if (List.range timeout).any fun i => check_returns port (env.polls i) then
    { spawnInvoked := true
      message := "Server started successfully, launching browser..." }
  else
    { spawnInvoked := true
      message := "Server process started but not listening on port 8080" }

/-! ### stop_server -/

/-- Environment of one `stop_server` call, in program order: the two psutil
scans of method 1 (terminate pass, then force-kill pass after the grace
wait), the return codes of the three npm taskkills of method 2, the
node.exe taskkill of method 3, the `netstat -aon` output and per-pid
taskkill return codes of method 4, the PowerShell output and per-pid
taskkill return codes of method 5, and the inspector state seen by the
final verification check.  `none` means the call raised or timed out. -/
structure StopEnv where
  psutilPass1 : Option (List ProcInfo)
  psutilPass2 : Option (List ProcInfo)
  npmCmdRC : Option Nat
  npmExeRC : Option Nat
  npxCmdRC : Option Nat
  nodeKillRC : Option Nat
  netstatAon : Option String
  pidKillRC : String → Option Nat
  psOut : Option (Nat × String)
  psPidKillRC : String → Option Nat
  finalCheck : InspectorState

/-- Result of `stop_server`: the reported outcome, the `killed` flag, the
`methods_tried` log, and the final log message. -/
structure StopResult where
  success : Bool
  killed : Bool
  methodsTried : List String
  message : String
  deriving DecidableEq

/-- Whether a `subprocess.run` result has return code 0 (`none` is a raise
or timeout). -/
def rcZero : Option Nat → Bool
  | some 0 => true
  | _ => false

/-- `killed` after method 1 of `stop_server`: terminate every
name+command-line match, grace wait, then force-kill the matches still
present.  A raise in the first scan skips the whole method; a raise in the
second scan keeps the kills of the first. -/
def stop_killed1 (env : StopEnv) : Bool :=
  match env.psutilPass1 with
  | none => false
  | some ps1 =>
    let k := ps1.any matchesRssfeed
    match env.psutilPass2 with
    | none => k
    | some ps2 => k || ps2.any matchesRssfeed

/-- `killed` after method 2 of `stop_server`: taskkill `npm.cmd`,
`npm.exe`, `npx.cmd` in order; a raise skips the rest of the method. -/
def stop_killed2 (env : StopEnv) : Bool :=
  match env.npmCmdRC with
  | none => stop_killed1 env
  | some r1 =>
    let k := stop_killed1 env || r1 == 0
    match env.npmExeRC with
    | none => k
    | some r2 =>
      let k := k || r2 == 0
      match env.npxCmdRC with
      | none => k
      | some r3 => k || r3 == 0

/-- `killed` after method 3 of `stop_server`: taskkill `node.exe`, run
only when nothing has been killed yet (`if not killed:`). -/
def stop_killed3 (env : StopEnv) : Bool :=
  if stop_killed2 env then stop_killed2 env else rcZero env.nodeKillRC

/-- The pid column extracted from `netstat -aon` output: lines containing
`f':{port} '` and `LISTENING` or `ESTABLISHED`, whitespace-split, field 5
(`parts[4].strip()`) of lines with at least 5 fields. -/
def netstatPortPids (port : Nat) (out : String) : List String :=
  (pySplitNl out).filterMap fun line =>
    if pyIn (portPat port) line && (pyIn "LISTENING" line || pyIn "ESTABLISHED" line) then
      let parts := pySplitWs line
      if parts.length ≥ 5 then some (pyStrip (parts.getD 4 "")) else none
    else none

/-- The pids `stop_server` method 4 tries to kill. -/
def stop_pids4 (port : Nat) (env : StopEnv) : List String :=
  match env.netstatAon with
  | none => []
  | some out => netstatPortPids port out

/-- `killed` after method 4 of `stop_server`: taskkill each pid found on
the port; return code 0 sets the flag. -/
def stop_killed4 (port : Nat) (env : StopEnv) : Bool :=
  stop_killed3 env || (stop_pids4 port env).any fun pid => rcZero (env.pidKillRC pid)

/-- The pids `stop_server` method 5 tries to kill: when the PowerShell
query has return code 0 and non-blank output, its stripped lines after the
two header lines. -/
def stop_pids5 (env : StopEnv) : List String :=
  match env.psOut with
  | none => []
  | some (r, out) =>
    if r == 0 && !(pyStrip out == "") then
      (((pySplitNl (pyStrip out)).drop 2).filter fun l => !(pyStrip l == "")).map pyStrip
    else []

/-- `killed` after method 5 of `stop_server` (the final value of the
flag). -/
def stop_killed5 (port : Nat) (env : StopEnv) : Bool :=
  stop_killed4 port env || (stop_pids5 env).any fun pid => rcZero (env.psPidKillRC pid)

/-- The `methods_tried` log of `stop_server`: methods 1, 2, 4 and 5 are
always appended; method 3's entry only when nothing was killed before
it. -/
def stop_methods_tried (env : StopEnv) : List String :=
  ["psutil node.exe kill", "npm processes kill"]
    ++ (if stop_killed2 env then [] else ["taskkill node.exe"])
    ++ ["port 8080 kill", "port cleanup"]

/-- `stop_server`: run the five kill methods, then verify with
`check_server_status`; success is reported exactly when that final check
returns false, with the message depending on the `killed` flag. -/
def stop_server (port : Nat) (env : StopEnv) : StopResult :=
  let finalRunning := check_returns port env.finalCheck
  { success := !finalRunning
  , killed := stop_killed5 port env
  , methodsTried := stop_methods_tried env
  , message :=
      if !finalRunning then
        if stop_killed5 port env then "Server stopped successfully"
        else "Server was already stopped"
      else "Failed to stop server completely" }

/-! ### force_kill_server -/

/-- Environment of one round of `force_kill_server`: the psutil scan of
strategy 1 with per-pid kill success, the npm taskkill of strategy 2, and
the netstat output with per-pid taskkill return codes of strategy 3. -/
structure ForceRoundEnv where
  procs : Option (List ProcInfo)
  pidKillOk : Nat → Bool
  npmRC : Option Nat
  netstat : Option String
  taskkillRC : String → Option Nat

/-- Environment of one `force_kill_server` call: one round environment per
round index, and the inspector state of the single final verification. -/
structure ForceKillEnv where
  rounds : Nat → ForceRoundEnv
  finalCheck : InspectorState

/-- Result of `force_kill_server`: the `killed_any` flag, the round
indices whose strategies were executed, and the single final check. -/
structure ForceKillResult where
  killedAny : Bool
  roundsAttempted : List Nat
  stillRunning : Bool
  success : Bool
  deriving DecidableEq

/-- Order-preserving de-duplication, as `if pid not in pids_to_kill:
pids_to_kill.append(pid)` builds the list. -/
def dedupAppend (l : List String) : List String :=
  l.foldl (fun acc p => if acc.contains p then acc else acc ++ [p]) []

/-- Whether one round of `force_kill_server` sets `killed_any`:
kill every name-matched node pid (strategy 1), taskkill `npm.cmd`
(strategy 2), taskkill each de-duplicated pid on the port (strategy 3). -/
def force_round_killed (port : Nat) (re : ForceRoundEnv) : Bool :=
  (match re.procs with
   | some ps => (ps.filter matchesNode).any fun p => re.pidKillOk p.pid
   | none => false)
  || rcZero re.npmRC
  || (match re.netstat with
      | some out => (dedupAppend (netstatPortPids port out)).any fun pid =>
          rcZero (re.taskkillRC pid)
      | none => false)

/-- `force_kill_server`: three unconditional rounds (`for round_num in
range(3)`), then one final `check_server_status`; success is reported
exactly when that final check returns false. -/
def force_kill_server (port : Nat) (env : ForceKillEnv) : ForceKillResult :=
  let st := (List.range 3).foldl
    (fun (st : Bool × List Nat) r =>
      (st.1 || force_round_killed port (env.rounds r), st.2 ++ [r]))
    (false, [])
  let stillRunning := check_returns port env.finalCheck
  { killedAny := st.1
  , roundsAttempted := st.2
  , stillRunning := stillRunning
  , success := !stillRunning }

/-! ### restart_server -/

/-- Environment of one `restart_server` call: the stop environment, the
inspector states of the up-to-ten one-second wait checks, the force-kill
environment (consulted only if the wait never sees the service stopped),
and the start environment. -/
structure RestartEnv where
  stopEnv : StopEnv
  waitChecks : Nat → InspectorState
  forceEnv : ForceKillEnv
  startEnv : StartEnv

/-- Result of `restart_server`: the stop result, whether the wait loop saw
the service stopped, whether `force_kill_server` was invoked (and its
result), and the unconditional final `start_server_normal` call. -/
structure RestartResult where
  stopResult : StopResult
  stopConverged : Bool
  forceInvoked : Bool
  forceResult : Option ForceKillResult
  startInvoked : Bool
  startResult : StartResult

/-- `restart_server`: `stop_server`, then up to ten one-second waits for
`check_server_status()` to return false; if it never does,
`force_kill_server`; then `start_server_normal`, unconditionally. -/
def restart_server (port timeout : Nat) (env : RestartEnv) : RestartResult :=
  let sr := stop_server port env.stopEnv
  let stopped := (List.range 10).any fun i => !(check_returns port (env.waitChecks i))
  { stopResult := sr
  , stopConverged := stopped
  , forceInvoked := !stopped
  , forceResult :=
      if !stopped then some (force_kill_server port env.forceEnv) else none
  , startInvoked := true
  , startResult := start_server_normal port timeout env.startEnv }

/-! ### Concrete environments used in witnesses and counterexamples -/

/-- A stop environment in which nothing is running: empty psutil scans,
all taskkills fail, netstat and PowerShell find no port owner, and the
final check sees the idle world. -/
def stopEnvIdle : StopEnv :=
  { psutilPass1 := some []
  , psutilPass2 := some []
  , npmCmdRC := some 128
  , npmExeRC := some 128
  , npxCmdRC := some 128
  , nodeKillRC := some 128
  , netstatAon := some "Active Connections"
  , pidKillRC := fun _ => some 128
  , psOut := some (1, "")
  , psPidKillRC := fun _ => some 128
  , finalCheck := idleInspector }

/-- A stop environment in which method 1's terminate pass finds and
terminates the matching process, after which nothing is left. -/
def stopEnvBusy : StopEnv :=
  { stopEnvIdle with psutilPass1 := some [nodeProc] }

/-- A force-kill round environment in which nothing is found to kill. -/
def emptyRound : ForceRoundEnv :=
  { procs := some []
  , pidKillOk := fun _ => false
  , npmRC := some 128
  , netstat := some "Active Connections"
  , taskkillRC := fun _ => some 128 }

/-- A force-kill round environment in which strategy 1 finds and kills the
node process. -/
def busyRound : ForceRoundEnv :=
  { emptyRound with procs := some [nodeProc], pidKillOk := fun _ => true }

/-- A force-kill environment in which round 1 kills the service and the
worlds seen by rounds 2 and 3 are already empty. -/
def forceEnvConverged : ForceKillEnv :=
  { rounds := fun r => if r = 0 then busyRound else emptyRound
  , finalCheck := idleInspector }

/-- The inspector state a probe between rounds of `forceEnvConverged`
would have seen (the observations of round 2's world). -/
def forceEnvConvergedMid : InspectorState :=
  { netstat := (forceEnvConverged.rounds 1).netstat
  , procs := (forceEnvConverged.rounds 1).procs
  , tasklist := some "INFO: No tasks are running." }

/-- A force-kill environment in which every kill fails and the port stays
listening. -/
def forceEnvStuck : ForceKillEnv :=
  { rounds := fun _ => emptyRound
  , finalCheck := listeningNoProc }

/-- A stop environment in which every kill fails and the final check still
sees the port listening. -/
def stopEnvStuck : StopEnv :=
  { stopEnvIdle with finalCheck := listeningNoProc }

/-- A start environment whose entry guard sees the port listening. -/
def startEnvRunning : StartEnv :=
  { guardCheck := listeningNoProc
  , spawnOk := true
  , polls := fun _ => listeningNoProc }

/-- A start environment whose entry guard sees the matching process with
the port closed, and whose first poll sees the port listening. -/
def startEnvNodePresent : StartEnv :=
  { guardCheck := nodePresentInspector
  , spawnOk := true
  , polls := fun _ => listeningNoProc }

/-- A restart environment in which the stop pass, the ten wait checks, the
force-kill pass and the start guard all see the port still listening: the
prior instance never lets go of the port. -/
def restartEnvStuck : RestartEnv :=
  { stopEnv := stopEnvStuck
  , waitChecks := fun _ => listeningNoProc
  , forceEnv := forceEnvStuck
  , startEnv := startEnvRunning }

/-! ### Shared lemmas -/

/-- The boolean `check_server_status()` returns is exactly "the netstat
method observed the configured port listening": the psutil and tasklist
methods can only produce `node_running` or `not_running`. -/
theorem check_returns_eq_port_observed (port : Nat) (s : InspectorState) :
    check_returns port s = portObservedListening port s := by
  obtain ⟨ns, ps, tl⟩ := s
  cases ns with
  | none =>
    simp only [check_returns, check_server_status, status_method3, status_method2,
      status_method1, portObservedListening]
    cases ps <;> cases tl <;>
      repeat (first | rfl | (split <;> try rfl) | decide | simp_all | split)
  | some out =>
    by_cases hb : (pyIn (portPat port) out && pyIn "LISTENING" out) = true
    · simp [check_returns, check_server_status, status_method3, status_method2,
        status_method1, portObservedListening, hb]
    · simp only [Bool.not_eq_true] at hb
      simp only [check_returns, check_server_status, status_method3, status_method2,
        status_method1, portObservedListening, hb, if_false]
      cases ps <;> cases tl <;>
        repeat (first | rfl | (split <;> try rfl) | decide | simp_all | split)

/-- The `killed` flag of `stop_server` only grows: once set by method 1 or
2 it is still set at the end. -/
theorem stop_killed2_mono (port : Nat) (env : StopEnv)
    (h : stop_killed2 env = true) : stop_killed5 port env = true := by
  simp [stop_killed5, stop_killed4, stop_killed3, h]

/-! ### Claim C1 -/

/-- Claim C1 counterexample: with the port observed listening and an empty
process table (so no process matching the patterns exists at all),
`check_server_status` still classifies the service as running.  The claim
"Running implies at least one matched process" is false: method 1 sets
`'running'` from the netstat check alone and the process scan is then
skipped. -/
theorem c1_running_without_process_match :
    check_server_status 8080 listeningNoProc = some Status.running ∧
    listeningNoProc.procs = some ([] : List ProcInfo) := by decide

/-- Claim C1 (amended): a Running result implies the configured port was
observed in a listening state by that check's netstat method; no matching
process is required. -/
theorem c1_running_implies_port_observed (port : Nat) (s : InspectorState)
    (h : check_server_status port s = some Status.running) :
    portObservedListening port s = true := by
  have h2 := check_returns_eq_port_observed port s
  unfold check_returns at h2
  rw [h] at h2
  simpa using h2.symm

/-- Witness for `c1_running_implies_port_observed` at a concrete state. -/
theorem c1_running_implies_port_observed_witness :
    check_server_status 8080 listeningNoProc = some Status.running ∧
    portObservedListening 8080 listeningNoProc = true :=
  ⟨by decide, c1_running_implies_port_observed 8080 listeningNoProc (by decide)⟩

/-! ### Claim C2 -/

/-- Claim C2 counterexample: when all three detection methods raise, the
bare `except:` of the tasklist fallback sets `current_status =
'not_running'`, so the check reports NotRunning; there is no Indeterminate
outcome, contrary to the claim. -/
theorem c2_all_methods_error_not_running :
    check_server_status 8080 allErrors = some Status.not_running := by decide

/-- Claim C2 (amended): when every detection method errors, the check
reports `not_running` (the tasklist fallback's error handler guesses
"confirmed absent" instead of returning an Indeterminate result). -/
theorem c2_all_errors_reports_not_running (port : Nat) (s : InspectorState)
    (h1 : s.netstat = none) (h2 : s.procs = none) (h3 : s.tasklist = none) :
    check_server_status port s = some Status.not_running := by
  simp [check_server_status, status_method3, status_method2, status_method1,
    h1, h2, h3]

/-- Witness for `c2_all_errors_reports_not_running` at a concrete state. -/
theorem c2_all_errors_reports_not_running_witness :
    check_server_status 9090 allErrors = some Status.not_running :=
  c2_all_errors_reports_not_running 9090 allErrors rfl rfl rfl

/-! ### Claim C3 -/

/-- Claim C3 counterexample: with the service already not running,
`stop_server` still runs every termination strategy — there is no initial
probe and the attempts log (`methods_tried`) is the full five-entry list,
not empty — although it does report success ("Server was already
stopped"). -/
theorem c3_stop_idle_runs_all_strategies :
    check_returns 8080 idleInspector = false ∧
    (stop_server 8080 stopEnvIdle).success = true ∧
    (stop_server 8080 stopEnvIdle).message = "Server was already stopped" ∧
    (stop_server 8080 stopEnvIdle).methodsTried ≠ [] ∧
    (stop_server 8080 stopEnvIdle).methodsTried =
      ["psutil node.exe kill", "npm processes kill", "taskkill node.exe",
       "port 8080 kill", "port cleanup"] := by decide

/-- Claim C3 (amended): `stop_server` does not probe at entry; when the
final check shows not running and no kill succeeded, it reports success
with the "Server was already stopped" message, but the attempts log lists
all five strategies (all were executed). -/
theorem c3_stop_when_not_running_amended (port : Nat) (env : StopEnv)
    (h1 : check_returns port env.finalCheck = false)
    (h2 : (stop_server port env).killed = false) :
    (stop_server port env).success = true ∧
    (stop_server port env).message = "Server was already stopped" ∧
    (stop_server port env).methodsTried =
      ["psutil node.exe kill", "npm processes kill", "taskkill node.exe",
       "port 8080 kill", "port cleanup"] := by
  have h2' : stop_killed5 port env = false := h2
  have hk2 : stop_killed2 env = false := by
    by_cases hc : stop_killed2 env = true
    · rw [stop_killed2_mono port env hc] at h2'
      exact absurd h2' (by decide)
    · simpa using hc
  refine ⟨?_, ?_, ?_⟩ <;>
    simp [stop_server, stop_methods_tried, h1, h2', hk2]

/-- Witness for `c3_stop_when_not_running_amended` at a concrete
environment. -/
theorem c3_stop_when_not_running_amended_witness :
    check_returns 8081 stopEnvIdle.finalCheck = false ∧
    (stop_server 8081 stopEnvIdle).killed = false ∧
    (stop_server 8081 stopEnvIdle).message = "Server was already stopped" :=
  ⟨by decide, by decide,
    (c3_stop_when_not_running_amended 8081 stopEnvIdle (by decide) (by decide)).2.1⟩

/-! ### Claim C4 -/

/-- Claim C4 counterexample: in `forceEnvConverged` round 1 kills the
service and the worlds seen by rounds 2 and 3 are empty — a probe between
rounds would already return "not Running" — yet all three rounds execute.
The claim "no later round executes once a round has converged" is false:
the loop is `for round_num in range(3)` with no per-round re-probe and no
break. -/
theorem c4_rounds_continue_after_convergence :
    (force_kill_server 8080 forceEnvConverged).killedAny = true ∧
    check_returns 8080 forceEnvConvergedMid = false ∧
    (force_kill_server 8080 forceEnvConverged).roundsAttempted = [0, 1, 2] := by
  decide

/-- Claim C4 (amended): `force_kill_server` always executes all three
rounds unconditionally; the service state is re-probed only once, after
the last round, and success is reported exactly when that single final
check does not return Running. -/
theorem c4_all_rounds_always_executed (port : Nat) (env : ForceKillEnv) :
    (force_kill_server port env).roundsAttempted = [0, 1, 2] ∧
    (force_kill_server port env).success = !(check_returns port env.finalCheck) :=
  ⟨rfl, rfl⟩

/-! ### Claim C5 -/

/-- Claim C5 counterexample: when the graceful-terminate pass succeeds
(`killed` is set), the force-kill-by-name-alone strategy
(`taskkill node.exe`) is skipped — `methods_tried` lacks its entry — so
"each strategy is attempted regardless of whether an earlier strategy
failed or succeeded" is false. -/
theorem c5_name_kill_skipped_after_success :
    (stop_server 8080 stopEnvBusy).killed = true ∧
    (stop_server 8080 stopEnvBusy).methodsTried =
      ["psutil node.exe kill", "npm processes kill", "port 8080 kill",
       "port cleanup"] ∧
    "taskkill node.exe" ∉ (stop_server 8080 stopEnvBusy).methodsTried := by decide

/-- Claim C5 (amended): within one `stop_server` run the strategies run in
the fixed order graceful terminate + grace wait + force kill of
name+command-line matches, npm-process kills, force kill by name alone,
then two kill-by-port-owner passes — but the force-kill-by-name strategy
runs only when no earlier strategy reported a kill (and in that case the
run had killed something). -/
theorem c5_strategy_order_amended (port : Nat) (env : StopEnv) :
    (stop_server port env).methodsTried =
      ["psutil node.exe kill", "npm processes kill", "taskkill node.exe",
       "port 8080 kill", "port cleanup"] ∨
    ((stop_server port env).methodsTried =
      ["psutil node.exe kill", "npm processes kill", "port 8080 kill",
       "port cleanup"] ∧
     (stop_server port env).killed = true) := by
  by_cases h : stop_killed2 env = true
  · right
    constructor
    · simp [stop_server, stop_methods_tried, h]
    · show stop_killed5 port env = true
      exact stop_killed2_mono port env h
  · left
    simp only [Bool.not_eq_true] at h
    simp [stop_server, stop_methods_tried, h]

/-! ### Claim C6 -/

/-- Claim C6 counterexample: with a prior instance that never releases the
port (stop fails, all ten wait checks still see it listening, the
force-kill pass fails too), `restart_server` still invokes
`start_server_normal` — while the start guard's own check observes the
port listening.  "restart never calls start() while the prior instance
might still hold the port" is false. -/
theorem c6_start_invoked_while_port_held :
    (restart_server 8080 15 restartEnvStuck).stopConverged = false ∧
    (restart_server 8080 15 restartEnvStuck).startInvoked = true ∧
    check_returns 8080 restartEnvStuck.startEnv.guardCheck = true := by decide

/-- Claim C6 (amended): when the post-stop wait never sees the service
stopped, `restart_server` does run one additional full
`force_kill_server` pass before starting — but it then invokes
`start_server_normal` unconditionally, even if the port may still be held
(start's own already-running guard is what prevents a duplicate spawn). -/
theorem c6_force_pass_before_start_amended (port timeout : Nat) (env : RestartEnv)
    (h : (restart_server port timeout env).stopConverged = false) :
    (restart_server port timeout env).forceInvoked = true ∧
    (restart_server port timeout env).forceResult =
      some (force_kill_server port env.forceEnv) ∧
    (restart_server port timeout env).startInvoked = true := by
  have hs : ((List.range 10).any fun i =>
      !(check_returns port (env.waitChecks i))) = false := h
  refine ⟨?_, ?_, rfl⟩ <;> simp [restart_server, hs]

/-- Witness for `c6_force_pass_before_start_amended` at a concrete
environment. -/
theorem c6_force_pass_before_start_amended_witness :
    (restart_server 8080 20 restartEnvStuck).stopConverged = false ∧
    (restart_server 8080 20 restartEnvStuck).forceInvoked = true :=
  ⟨by decide,
    (c6_force_pass_before_start_amended 8080 20 restartEnvStuck (by decide)).1⟩

/-! ### Claim C7 -/

/-- Claim C7: when the entry check reports Running, `start_server_normal`
returns immediately with the "already running" message and the spawn is
never invoked. -/
theorem c7_start_guard_prevents_spawn (port timeout : Nat) (env : StartEnv)
    (h : check_returns port env.guardCheck = true) :
    start_server_normal port timeout env =
      { spawnInvoked := false
        message := "Server is already running on port 8080!" } := by
  simp [start_server_normal, h]

/-- Witness for `c7_start_guard_prevents_spawn` at a concrete
environment. -/
theorem c7_start_guard_prevents_spawn_witness :
    check_returns 8080 startEnvRunning.guardCheck = true ∧
    start_server_normal 8080 15 startEnvRunning =
      { spawnInvoked := false
        message := "Server is already running on port 8080!" } :=
  ⟨by decide, c7_start_guard_prevents_spawn 8080 15 startEnvRunning (by decide)⟩

/-! ### Claim C8 -/

/-- Claim C8: when the netstat port method raises but the psutil scan
finds a name+command-line match, the check still returns the definitive
process-present-port-closed classification (`node_running`), not an
indeterminate one. -/
theorem c8_port_error_with_match_definitive (port : Nat) (s : InspectorState)
    (ps : List ProcInfo) (h1 : s.netstat = none) (h2 : s.procs = some ps)
    (h3 : ps.any matchesRssfeed = true) :
    check_server_status port s = some Status.node_running := by
  simp [check_server_status, status_method3, status_method2, status_method1,
    h1, h2, h3]

/-- Witness for `c8_port_error_with_match_definitive` at a concrete
state. -/
theorem c8_port_error_with_match_definitive_witness :
    check_server_status 8080 portErrInspector = some Status.node_running :=
  c8_port_error_with_match_definitive 8080 portErrInspector [nodeProc]
    rfl rfl (by decide)

/-! ### Claim C9 -/

/-- Claim C9: when the check classifies the service as process present but
port closed (`node_running`), the boolean the start guard consults is
false, so `start_server_normal` proceeds to spawn a new process. -/
theorem c9_port_closed_process_present_spawns (port timeout : Nat)
    (env : StartEnv)
    (h : check_server_status port env.guardCheck = some Status.node_running) :
    (start_server_normal port timeout env).spawnInvoked = true := by
  have hg : check_returns port env.guardCheck = false := by
    unfold check_returns
    rw [h]
    decide
  simp only [start_server_normal, hg, Bool.false_eq_true, if_false]
  split
  · rfl
  · split <;> rfl

/-- Witness for `c9_port_closed_process_present_spawns` at a concrete
environment. -/
theorem c9_port_closed_process_present_spawns_witness :
    check_server_status 8080 startEnvNodePresent.guardCheck =
      some Status.node_running ∧
    (start_server_normal 8080 15 startEnvNodePresent).spawnInvoked = true :=
  ⟨by decide,
    c9_port_closed_process_present_spawns 8080 15 startEnvNodePresent (by decide)⟩

/-! ### Claim C10 -/

/-- Claim C10: the outcome `stop_server` reports is determined solely by
whether the final verification check observed the configured port
listening — success exactly when it did not, for every environment,
including those where matching processes are still present or every kill
attempt failed. -/
theorem c10_stop_success_iff_port_not_observed (port : Nat) (env : StopEnv) :
    (stop_server port env).success =
      !(portObservedListening port env.finalCheck) := by
  show (!(check_returns port env.finalCheck)) =
    (!(portObservedListening port env.finalCheck))
  rw [check_returns_eq_port_observed]
